import Mathlib

/-!
Verification development for the `watch` package (piecegift/watch).

The package wraps a neutrino light client: a `Watcher` owns a chain service,
a wallet database and at most one rescan session, and implements a
stall-recovery restart protocol.  The definitions below are a shallow
embedding of `watch.go` and `tx.go`: external effects (neutrino, walletdb,
the filesystem, address decoding) are supplied by an explicit oracle
structure `Ext`, and each operation returns, next to its result, the list of
externally visible events it performed, in the order it performed them.
-/

namespace Watch

/-- Network parameter selection: `chaincfg.MainNetParams` or
`chaincfg.TestNet3Params` (chosen from the `testnet` flag in `start` and in
`PrepareTxOutputs`). -/
inductive ChainParams where
  | mainNet
  | testNet3
deriving Repr, DecidableEq

/-- The `Watcher` struct of `watch.go`.  The neutrino rescan handle and its
quit channel are modelled as optional session identifiers (`none` = Go `nil`);
`fullClose` is `true` once the `fullClose` channel has been closed;
`nextId` supplies fresh session identifiers for `neutrino.NewRescan`.
The chain-service and database handles themselves carry no data relevant to
the claims; their lifecycle shows up in the event trace. -/
structure Watcher where
  peers : List String
  torSocks : String
  testnet : Bool
  dir : String
  params : ChainParams
  rescan : Option Nat
  quitChan : Option Nat
  addresses : List String
  restarting : Bool
  fullClose : Bool
  nextId : Nat
deriving Repr, DecidableEq

/-- Externally visible events, in program order.  `engineStart` records the
arguments `start()` uses to rebuild the chain service and wallet database;
`newRescan` records `neutrino.NewRescan` + `rescan.Start()`;
`rescanUpdate sid addrs decoded` records `rescan.Update(AddAddrs(decoded))`
on session `sid`, where `addrs` are the address strings that were decoded;
`reapplyCall` records the restart protocol invoking `addAddresses` with its
snapshot of `w.addresses`. -/
inductive Event where
  | setRestarting
  | closeQuit
  | waitShutdown
  | csStop
  | dbClose
  | removeDataDir (path : String)
  | removeDbFile (path : String)
  | engineStart (peers : List String) (torSocks : String) (testnet : Bool) (dir : String)
  | syncPoll (height : Int)
  | newRescan (sid : Nat) (startBlock : Int) (handlers : Nat)
  | rescanUpdate (sid : Nat) (addrs : List String) (decoded : List String)
  | reapplyCall (addrs : List String)
  | logOnly (msg : String)
  | invokeRestart (startBlock : Int) (handlers : Nat)
  | clearRestarting
deriving Repr, DecidableEq

/-- Result of a fallible call: Go `error` plus the distinguished outcome of
invoking a method on a nil `*neutrino.Rescan` (a nil-pointer dereference
inside the library, i.e. a runtime panic, not an `error` return). -/
inductive CallResult where
  | ok
  | err (e : String)
  | nilDeref
deriving Repr, DecidableEq

/-- Result of `StartWatching`: silent return on a closed watcher, panic on a
second call, or a session successfully installed. -/
inductive SWResult where
  | closedReturn
  | panicked
  | started
deriving Repr, DecidableEq

/-- Result of `WaitForSync`: returned `nil`, returned a best-block query
error, or the supplied poll observations ran out while the engine was still
not current (the Go loop would still be running). -/
inductive SyncOutcome where
  | okSync
  | errSync (e : String)
  | noFuel
deriving Repr, DecidableEq

/-- Result of the restart protocol: ran to completion, gave up after a logged
failure, panicked (nil-pointer dereference propagating), or blocked forever
inside its nested `WaitForSync`. -/
inductive RestartOutcome where
  | completed
  | gaveUp
  | panicked
  | diverged
deriving Repr, DecidableEq

/-- Oracle for the external world consumed by one operation (or one run of
the restart protocol): results of `cs.Stop`, `db.Close`, `os.RemoveAll`,
`os.Remove`, the rebuild in `start()` (walletdb + mkdir + NewChainService +
cs.Start collapsed into one result), `rescan.Update`, the address decoder
`btcutil.DecodeAddress`, and the observations `(IsCurrent, BestBlock)` made
by successive iterations of the `WaitForSync` poll loop. -/
structure Ext where
  csStopErr : Option String
  dbCloseErr : Option String
  removeDirErr : Option String
  removeFileErr : Option String
  startErr : Option String
  updateErr : Option String
  decode : ChainParams → String → Except String String
  polls : List (Bool × Except String Int)

/-- `Watcher.stop`: if a session is installed, close its quit channel and
drain it (`rescan.WaitForShutdown`), clearing both handles; then stop the
chain service and close the database, propagating the first error. -/
def stop (ext : Ext) (w : Watcher) : Watcher × Option String × List Event :=
  let p :=
    match w.quitChan with
    | some _ =>
        ({ w with quitChan := none, rescan := none },
         [Event.closeQuit, Event.waitShutdown])
    | none => (w, [])
  let w1 := p.1
  match ext.csStopErr with
  | some e => (w1, some e, p.2 ++ [Event.csStop])
  | none =>
      match ext.dbCloseErr with
      | some e => (w1, some e, p.2 ++ [Event.csStop, Event.dbClose])
      | none => (w1, none, p.2 ++ [Event.csStop, Event.dbClose])

/-- The network parameters `start()` computes from the immutable `testnet`
flag. -/
def freshParams (testnet : Bool) : ChainParams :=
  if testnet then ChainParams.testNet3 else ChainParams.mainNet

/-- `Watcher.start`: reopen/recreate the wallet database, the data directory
and the chain service from the watcher's immutable construction arguments
(`peers`, `torSocks`, `testnet`, `dir`), and start the service.  The
individual failure points (walletdb, Mkdir, NewChainService, cs.Start) are
collapsed into one oracle result since nothing in the claims distinguishes
them. -/
def start (ext : Ext) (w : Watcher) : Watcher × Option String × List Event :=
  match ext.startErr with
  | some e =>
      (w, some e, [Event.engineStart w.peers w.torSocks w.testnet w.dir])
  | none =>
      ({ w with params := freshParams w.testnet }, none,
       [Event.engineStart w.peers w.torSocks w.testnet w.dir])

/-- `Watcher.Close`: close the `fullClose` channel, then `stop`. -/
def Close (ext : Ext) (w : Watcher) : Watcher × Option String × List Event :=
  stop ext { w with fullClose := true }

/-- The `WaitForSync` poll loop, driven by a finite list of observations:
each iteration reads `IsCurrent`; if current the loop exits with `nil`,
otherwise it sleeps, queries `BestBlock` (propagating an error), and logs the
height.  An exhausted observation list means the loop is still running. -/
def waitForSyncAux : List (Bool × Except String Int) → SyncOutcome × List Event
  | [] => (SyncOutcome.noFuel, [])
  | (current, bb) :: rest =>
      if current then (SyncOutcome.okSync, [])
      else
        match bb with
        | Except.error e => (SyncOutcome.errSync e, [])
        | Except.ok h =>
            let r := waitForSyncAux rest
            (r.1, Event.syncPoll h :: r.2)

/-- `Watcher.WaitForSync` under the oracle's poll observations. -/
def WaitForSync (ext : Ext) (w : Watcher) : Watcher × SyncOutcome × List Event :=
  let r := waitForSyncAux ext.polls
  (w, r.1, r.2)

/-- `Watcher.StartWatching`: return silently if `fullClose` is closed; panic
if a rescan session is already installed; otherwise install a fresh quit
channel and rescan session (`neutrino.NewRescan` + `rescan.Start`) beginning
at `startBlock` with the given notification handlers (represented by an
opaque identifier). -/
def StartWatching (w : Watcher) (startBlock : Int) (handlers : Nat) :
    Watcher × SWResult × List Event :=
  if w.fullClose then (w, SWResult.closedReturn, [])
  else
    match w.rescan with
    | some _ => (w, SWResult.panicked, [])
    | none =>
        let sid := w.nextId
        ({ w with quitChan := some sid, rescan := some sid, nextId := sid + 1 },
         SWResult.started,
         [Event.newRescan sid startBlock handlers])

/-- The decoding loop of `Watcher.addAddresses`: decode each address in
order against the given network parameters, returning the first failure
wrapped as `btcutil.DecodeAddress: <err>`. -/
def decodeAll (decode : String → Except String String) :
    List String → Except String (List String)
  | [] => Except.ok []
  | a :: rest =>
      match decode a with
      | Except.error e => Except.error ("btcutil.DecodeAddress: " ++ e)
      | Except.ok x =>
          match decodeAll decode rest with
          | Except.error e => Except.error e
          | Except.ok xs => Except.ok (x :: xs)

/-- `Watcher.addAddresses` (lower-case): decode every address, then call
`w.rescan.Update(neutrino.AddAddrs(decoded))`.  When `w.rescan` is Go `nil`,
that call dereferences the nil receiver inside the external library (its
`Update` reads the receiver's fields unconditionally), which is a runtime
panic, modelled as `CallResult.nilDeref`. -/
def addAddresses (ext : Ext) (w : Watcher) (addrs : List String) :
    CallResult × List Event :=
  match decodeAll (ext.decode w.params) addrs with
  | Except.error e => (CallResult.err e, [])
  | Except.ok aaa =>
      match w.rescan with
      | none => (CallResult.nilDeref, [])
      | some sid =>
          match ext.updateErr with
          | some e =>
              (CallResult.err ("rescan.Update: " ++ e),
               [Event.rescanUpdate sid addrs aaa])
          | none => (CallResult.ok, [Event.rescanUpdate sid addrs aaa])

/-- `Watcher.AddAddresses`: under the mutex, append the given addresses to
`w.addresses`; if `restarting`, return `nil` without touching the session;
otherwise delegate to `addAddresses` and propagate its result. -/
def AddAddresses (ext : Ext) (w : Watcher) (addrs : List String) :
    Watcher × CallResult × List Event :=
  let w1 := { w with addresses := w.addresses ++ addrs }
  if w1.restarting then (w1, CallResult.ok, [])
  else
    let r := addAddresses ext w1 addrs
    (w1, r.1, r.2)

/-- `Watcher.restart`: the restart protocol.  Sets `restarting`, then in
order: `stop`, delete the data directory, delete the database file, `start`,
`WaitForSync`, `StartWatching` with the original arguments, snapshot
`w.addresses` and re-apply it via `addAddresses`.  Any failure is logged and
the protocol gives up; the deferred clearing of `restarting` runs on every
exit path (including a propagating panic) except a `WaitForSync` that never
returns. -/
def restart (ext : Ext) (w : Watcher) (startBlock : Int) (handlers : Nat) :
    Watcher × RestartOutcome × List Event :=
  let w0 := { w with restarting := true }
  let tr0 := [Event.setRestarting]
  let s := stop ext w0
  let w1 := s.1
  let tr1 := tr0 ++ s.2.2
  match s.2.1 with
  | some _ =>
      ({ w1 with restarting := false }, RestartOutcome.gaveUp,
       tr1 ++ [Event.clearRestarting])
  | none =>
      let tr2 := tr1 ++ [Event.removeDataDir (w1.dir ++ "/data")]
      match ext.removeDirErr with
      | some _ =>
          ({ w1 with restarting := false }, RestartOutcome.gaveUp,
           tr2 ++ [Event.clearRestarting])
      | none =>
          let tr3 := tr2 ++ [Event.removeDbFile (w1.dir ++ "/wallet.db")]
          match ext.removeFileErr with
          | some _ =>
              ({ w1 with restarting := false }, RestartOutcome.gaveUp,
               tr3 ++ [Event.clearRestarting])
          | none =>
              let st := start ext w1
              let w2 := st.1
              let tr4 := tr3 ++ st.2.2
              match st.2.1 with
              | some _ =>
                  ({ w2 with restarting := false }, RestartOutcome.gaveUp,
                   tr4 ++ [Event.clearRestarting])
              | none =>
                  let sy := waitForSyncAux ext.polls
                  let tr5 := tr4 ++ sy.2
                  match sy.1 with
                  | SyncOutcome.noFuel => (w2, RestartOutcome.diverged, tr5)
                  | SyncOutcome.errSync _ =>
                      ({ w2 with restarting := false }, RestartOutcome.gaveUp,
                       tr5 ++ [Event.clearRestarting])
                  | SyncOutcome.okSync =>
                      let sw := StartWatching w2 startBlock handlers
                      let w3 := sw.1
                      let tr6 := tr5 ++ sw.2.2
                      let snapshot := w3.addresses
                      let tr7 := tr6 ++ [Event.reapplyCall snapshot]
                      let ad := addAddresses ext w3 snapshot
                      let tr8 := tr7 ++ ad.2
                      match ad.1 with
                      | CallResult.nilDeref =>
                          ({ w3 with restarting := false },
                           RestartOutcome.panicked,
                           tr8 ++ [Event.clearRestarting])
                      | CallResult.err _ =>
                          ({ w3 with restarting := false },
                           RestartOutcome.gaveUp,
                           tr8 ++ [Event.clearRestarting])
                      | CallResult.ok =>
                          ({ w3 with restarting := false },
                           RestartOutcome.completed,
                           tr8 ++ [Event.clearRestarting])

/-- Substring containment on character lists (the semantics of Go's
`strings.Contains`). -/
def containsSub (needle : List Char) : List Char → Bool
  | [] => needle.isEmpty
  | c :: rest => needle.isPrefixOf (c :: rest) || containsSub needle rest

/-- `strings.Contains(s, sub)`. -/
def strContains (s sub : String) : Bool :=
  containsSub sub.toList s.toList

/-- The error classifier of the rescan error listener:
`strings.Contains(err.Error(), "unable to fetch cfilter")`. -/
def matchesDefectSignature (msg : String) : Bool :=
  strContains msg "unable to fetch cfilter"

/-- One iteration of the error-listener goroutine installed by
`StartWatching`: log the error; if its message matches the defect signature,
additionally log the bug notice and call `w.restart` with the `startBlock`
and `handlers` captured from `StartWatching`'s arguments. -/
def handleRescanError (ext : Ext) (w : Watcher) (startBlock : Int)
    (handlers : Nat) (msg : String) : Watcher × List Event :=
  if matchesDefectSignature msg then
    let r := restart ext w startBlock handlers
    (r.1, Event.logOnly msg :: Event.invokeRestart startBlock handlers :: r.2.2)
  else (w, [Event.logOnly msg])

/-- A transaction output (`wire.TxOut`): a value in satoshi and a raw
public-key script. -/
structure TxOut where
  value : Int
  pkScript : List Nat
deriving Repr, DecidableEq

/-- Go map semantics for `result[a] += v` on an association list: add `v`
to the existing entry for `a`, or append a new entry `(a, v)` (reading the
zero value for a missing key). -/
def mapAdd (m : List (String × Int)) (k : String) (v : Int) :
    List (String × Int) :=
  match m with
  | [] => [(k, v)]
  | (k1, v1) :: rest =>
      if k1 = k then (k1, v1 + v) :: rest else (k1, v1) :: mapAdd rest k v

/-- Go map lookup: `some` the stored amount, `none` when the key has no
entry. -/
def mapGet (m : List (String × Int)) (k : String) : Option Int :=
  match m with
  | [] => none
  | (k1, v1) :: rest => if k1 = k then some v1 else mapGet rest k

/-- `PrepareTxOutputs` (tx.go): pick the network parameters from `testnet`,
then for each output of the transaction try to resolve its script to an
address (`txscript.ParsePkScript` followed by `.Address(params)` followed by
`.EncodeAddress()`, collapsed into the oracle `resolve`); outputs that do not
resolve are skipped, and resolving outputs accumulate
`result[addr] += txOut.Value`. -/
def PrepareTxOutputs (resolve : List Nat → ChainParams → Option String)
    (tx : List TxOut) (testnet : Bool) : List (String × Int) :=
  let params := if testnet then ChainParams.testNet3 else ChainParams.mainNet
  tx.foldl
    (fun result txOut =>
      match resolve txOut.pkScript params with
      | none => result
      | some a => mapAdd result a txOut.value)
    []

/-- Modelled from the spec's words, for comparison with `PrepareTxOutputs`:
the values of all outputs of the transaction whose script resolves to the
given address. -/
def specOutputValues (resolve : List Nat → ChainParams → Option String)
    (tx : List TxOut) (testnet : Bool) (a : String) : List Int :=
  let params := if testnet then ChainParams.testNet3 else ChainParams.mainNet
  (tx.filter (fun o => resolve o.pkScript params = some a)).map TxOut.value

/-- The caller-visible operations on a `Watcher`, for stating invariants that
quantify over every operation. -/
inductive Op where
  | opAddAddresses (ext : Ext) (addrs : List String)
  | opStartWatching (startBlock : Int) (handlers : Nat)
  | opWaitForSync (ext : Ext)
  | opClose (ext : Ext)
  | opStop (ext : Ext)
  | opRestart (ext : Ext) (startBlock : Int) (handlers : Nat)
  | opHandleErr (ext : Ext) (startBlock : Int) (handlers : Nat) (msg : String)

/-- The state reached by running one operation. -/
def applyOp : Op → Watcher → Watcher
  | Op.opAddAddresses ext addrs, w => (AddAddresses ext w addrs).1
  | Op.opStartWatching sb h, w => (StartWatching w sb h).1
  | Op.opWaitForSync ext, w => (WaitForSync ext w).1
  | Op.opClose ext, w => (Close ext w).1
  | Op.opStop ext, w => (stop ext w).1
  | Op.opRestart ext sb h, w => (restart ext w sb h).1
  | Op.opHandleErr ext sb h msg, w => (handleRescanError ext w sb h msg).1

/-! ### Concrete fixtures used by witnesses and counterexamples -/

/-- An oracle on which every external call succeeds, every address decodes to
itself, and the sync poll loop observes a current engine immediately. -/
def extOK : Ext :=
  { csStopErr := none
    dbCloseErr := none
    removeDirErr := none
    removeFileErr := none
    startErr := none
    updateErr := none
    decode := fun _ a => Except.ok a
    polls := [(true, Except.ok 0)] }

/-- An oracle like `extOK` on which decoding the string `"badaddr"` fails. -/
def extBad : Ext :=
  { extOK with
    decode := fun _ a =>
      if a = "badaddr" then Except.error "checksum mismatch" else Except.ok a }

/-- A watcher in the Watching state: one active rescan session, one recorded
address. -/
def wLive : Watcher :=
  { peers := ["peer1"]
    torSocks := ""
    testnet := false
    dir := "/tmp/watch"
    params := ChainParams.mainNet
    rescan := some 0
    quitChan := some 0
    addresses := ["addrA"]
    restarting := false
    fullClose := false
    nextId := 1 }

/-- A watcher right after `New` + `WaitForSync`: no rescan session yet. -/
def wFresh : Watcher :=
  { wLive with rescan := none, quitChan := none, addresses := [], nextId := 0 }

example : matchesDefectSignature "Rescan: unable to fetch cfilter xyz" = true := by
  decide

example : matchesDefectSignature "some other error" = false := by
  decide

/-! ### Helper lemmas -/

/-- The state returned by `stop` only clears the session handles. -/
theorem stop_fst (ext : Ext) (w : Watcher) :
    (stop ext w).1 =
      if w.quitChan.isSome then { w with quitChan := none, rescan := none }
      else w := by
  unfold stop
  rcases hq : w.quitChan with _ | q <;>
    rcases h1 : ext.csStopErr with _ | e1 <;>
      rcases h2 : ext.dbCloseErr with _ | e2 <;> simp [hq, h1, h2]

theorem stop_addresses (ext : Ext) (w : Watcher) :
    (stop ext w).1.addresses = w.addresses := by
  rw [stop_fst]; rcases w.quitChan with _ | q <;> simp

theorem stop_fullClose (ext : Ext) (w : Watcher) :
    (stop ext w).1.fullClose = w.fullClose := by
  rw [stop_fst]; rcases w.quitChan with _ | q <;> simp

/-- The state returned by `start` only replaces the network parameters. -/
theorem start_fst (ext : Ext) (w : Watcher) :
    (start ext w).1 =
      if ext.startErr.isSome then w
      else { w with params := freshParams w.testnet } := by
  unfold start
  rcases h : ext.startErr with _ | e <;> simp [h]

theorem start_addresses (ext : Ext) (w : Watcher) :
    (start ext w).1.addresses = w.addresses := by
  rw [start_fst]; rcases ext.startErr with _ | e <;> simp

theorem startWatching_addresses (w : Watcher) (sb : Int) (hs : Nat) :
    (StartWatching w sb hs).1.addresses = w.addresses := by
  unfold StartWatching
  rcases hf : w.fullClose <;> rcases hr : w.rescan with _ | s <;> simp [hf, hr]

/-- The restart protocol never touches the watched-address list. -/
theorem restart_addresses (ext : Ext) (w : Watcher) (sb : Int) (hs : Nat) :
    (restart ext w sb hs).1.addresses = w.addresses := by
  unfold restart
  dsimp only
  repeat' split
  all_goals
    simp [stop_addresses, start_addresses, startWatching_addresses]

theorem handleRescanError_addresses (ext : Ext) (w : Watcher) (sb : Int)
    (hs : Nat) (msg : String) :
    (handleRescanError ext w sb hs msg).1.addresses = w.addresses := by
  unfold handleRescanError
  rcases h : matchesDefectSignature msg <;> simp [h, restart_addresses]

/-- Full characterization of a restart run on which every external call
succeeds, starting from a non-closed watcher with an active session. -/
theorem restart_success_eq (ext : Ext) (w : Watcher) (sb : Int) (hs q : Nat)
    (syncTr : List Event) (aaa : List String)
    (hfc : w.fullClose = false)
    (hq : w.quitChan = some q)
    (h1 : ext.csStopErr = none) (h2 : ext.dbCloseErr = none)
    (h3 : ext.removeDirErr = none) (h4 : ext.removeFileErr = none)
    (h5 : ext.startErr = none)
    (h6 : waitForSyncAux ext.polls = (SyncOutcome.okSync, syncTr))
    (h7 : decodeAll (ext.decode (freshParams w.testnet)) w.addresses =
            Except.ok aaa)
    (h8 : ext.updateErr = none) :
    restart ext w sb hs =
      ({ w with params := freshParams w.testnet, rescan := some w.nextId,
                quitChan := some w.nextId, nextId := w.nextId + 1,
                restarting := false },
       RestartOutcome.completed,
       [Event.setRestarting, Event.closeQuit, Event.waitShutdown,
        Event.csStop, Event.dbClose,
        Event.removeDataDir (w.dir ++ "/data"),
        Event.removeDbFile (w.dir ++ "/wallet.db"),
        Event.engineStart w.peers w.torSocks w.testnet w.dir]
       ++ syncTr
       ++ [Event.newRescan w.nextId sb hs,
           Event.reapplyCall w.addresses,
           Event.rescanUpdate w.nextId w.addresses aaa,
           Event.clearRestarting]) := by
  unfold restart stop start StartWatching addAddresses
  simp [hfc, hq, h1, h2, h3, h4, h5, h6, h7, h8]

/-- Recognizer for `syncPoll` events. -/
def isSyncPollB : Event → Bool
  | Event.syncPoll _ => true
  | _ => false

/-- Recognizer for `rescanUpdate` events (session update calls). -/
def isRescanUpdateB : Event → Bool
  | Event.rescanUpdate _ _ _ => true
  | _ => false

/-- A trace made only of height logs contains no session update call. -/
theorem syncPoll_no_update (tr : List Event)
    (h : tr.all isSyncPollB = true) :
    ∀ ev ∈ tr, isRescanUpdateB ev = false := by
  intro ev hev
  have hv := (List.all_eq_true.mp h) ev hev
  cases ev <;> simp_all [isSyncPollB, isRescanUpdateB]

/-- A watcher whose recorded address set was poisoned by an undecodable
string: exactly the state `AddAddresses extBad wLive ["badaddr"]` leaves
behind, since `AddAddresses` records addresses before decoding them. -/
def wPoisoned : Watcher := { wLive with addresses := ["addrA", "badaddr"] }

/-- Every event the `WaitForSync` poll loop emits is a height log. -/
theorem waitForSyncAux_only_polls (polls : List (Bool × Except String Int)) :
    (waitForSyncAux polls).2.all isSyncPollB = true := by
  induction polls with
  | nil => rfl
  | cons p rest ih =>
      obtain ⟨current, bb⟩ := p
      rcases current <;> rcases bb with e | h <;>
        simp [waitForSyncAux, isSyncPollB, ih]

/-- The poll observations of a stagnating engine: the best height stays at
700000 over a full poll interval before the engine reports current. -/
def pollsStag : List (Bool × Except String Int) :=
  [(false, Except.ok 700000), (false, Except.ok 700000),
   (true, Except.ok 700000)]

def extStag : Ext := { extOK with polls := pollsStag }

/-! ### Claim theorems -/

/-- Claim C1: when the restart protocol runs (non-closed watcher, active
rescan session, every external call succeeding), its steps execute strictly
in this order: stop and drain the rescan session, stop the chain service,
close the database, delete the data directory, delete the database file,
rebuild engine and store from the immutable startup parameters, run
`WaitForSync` against the new engine, call `StartWatching` again with the
original `startBlock` and the original handlers, re-apply the watched
addresses to the new session, and only then clear the `restarting` flag. -/
theorem restart_protocol_ordered (ext : Ext) (w : Watcher) (sb : Int)
    (hs q r : Nat) (syncTr : List Event) (aaa : List String)
    (hfc : w.fullClose = false)
    (hq : w.quitChan = some q)
    (_hr : w.rescan = some r)
    (h1 : ext.csStopErr = none) (h2 : ext.dbCloseErr = none)
    (h3 : ext.removeDirErr = none) (h4 : ext.removeFileErr = none)
    (h5 : ext.startErr = none)
    (h6 : waitForSyncAux ext.polls = (SyncOutcome.okSync, syncTr))
    (h7 : decodeAll (ext.decode (freshParams w.testnet)) w.addresses =
            Except.ok aaa)
    (h8 : ext.updateErr = none) :
    restart ext w sb hs =
      ({ w with params := freshParams w.testnet, rescan := some w.nextId,
                quitChan := some w.nextId, nextId := w.nextId + 1,
                restarting := false },
       RestartOutcome.completed,
       [Event.setRestarting, Event.closeQuit, Event.waitShutdown,
        Event.csStop, Event.dbClose,
        Event.removeDataDir (w.dir ++ "/data"),
        Event.removeDbFile (w.dir ++ "/wallet.db"),
        Event.engineStart w.peers w.torSocks w.testnet w.dir]
       ++ syncTr
       ++ [Event.newRescan w.nextId sb hs,
           Event.reapplyCall w.addresses,
           Event.rescanUpdate w.nextId w.addresses aaa,
           Event.clearRestarting]) :=
  restart_success_eq ext w sb hs q syncTr aaa hfc hq h1 h2 h3 h4 h5 h6 h7 h8

theorem restart_protocol_ordered_witness :
    restart extOK wLive 628320 7 =
      ({ wLive with params := freshParams wLive.testnet,
                    rescan := some wLive.nextId,
                    quitChan := some wLive.nextId,
                    nextId := wLive.nextId + 1, restarting := false },
       RestartOutcome.completed,
       [Event.setRestarting, Event.closeQuit, Event.waitShutdown,
        Event.csStop, Event.dbClose,
        Event.removeDataDir (wLive.dir ++ "/data"),
        Event.removeDbFile (wLive.dir ++ "/wallet.db"),
        Event.engineStart wLive.peers wLive.torSocks wLive.testnet wLive.dir]
       ++ []
       ++ [Event.newRescan wLive.nextId 628320 7,
           Event.reapplyCall wLive.addresses,
           Event.rescanUpdate wLive.nextId wLive.addresses ["addrA"],
           Event.clearRestarting]) :=
  restart_protocol_ordered extOK wLive 628320 7 0 0 [] ["addrA"]
    rfl rfl rfl rfl rfl rfl rfl rfl rfl rfl rfl

/-- Claim C2 (counterexample): the poisoned set `["addrA", "badaddr"]` is
reachable (it is exactly what the failed `AddAddresses` call leaves behind,
since addresses are recorded before decoding); a restart run from it creates
a fresh rescan session (`newRescan` is in the trace), yet the re-apply fails
at decoding, the restart gives up, and the whole trace contains no
`rescanUpdate` call at all — so the currently watched address `"addrA"` is
never re-applied to that session. -/
theorem watched_addresses_reapply_cex :
    (AddAddresses extBad wLive ["badaddr"]).1 = wPoisoned ∧
    Event.newRescan wPoisoned.nextId 628320 7 ∈
        (restart extBad wPoisoned 628320 7).2.2 ∧
    (restart extBad wPoisoned 628320 7).2.1 = RestartOutcome.gaveUp ∧
    (restart extBad wPoisoned 628320 7).2.2.all
        (fun ev => !(isRescanUpdateB ev)) = true := by
  decide

/-- Claim C2 (amended): no operation ever removes an address from the
watched-address list, and every restart run that creates a fresh rescan
session invokes the re-apply step with the complete current list.  When the
re-apply's decoding succeeds the session update call carries every watched
address; but when any recorded address fails to decode, the restart gives up
before any session update — no address reaches the fresh session. -/
theorem watched_addresses_invariant :
    (∀ (op : Op) (w : Watcher) (a : String),
        a ∈ w.addresses → a ∈ (applyOp op w).addresses) ∧
    (∀ (ext : Ext) (w : Watcher) (sb : Int) (hs q : Nat)
        (syncTr : List Event),
        w.fullClose = false → w.quitChan = some q →
        ext.csStopErr = none → ext.dbCloseErr = none →
        ext.removeDirErr = none → ext.removeFileErr = none →
        ext.startErr = none →
        waitForSyncAux ext.polls = (SyncOutcome.okSync, syncTr) →
        Event.newRescan w.nextId sb hs ∈ (restart ext w sb hs).2.2 ∧
        Event.reapplyCall w.addresses ∈ (restart ext w sb hs).2.2 ∧
        (∀ aaa, decodeAll (ext.decode (freshParams w.testnet)) w.addresses =
            Except.ok aaa →
          ext.updateErr = none →
          Event.rescanUpdate w.nextId w.addresses aaa ∈
            (restart ext w sb hs).2.2) ∧
        (∀ e, decodeAll (ext.decode (freshParams w.testnet)) w.addresses =
            Except.error e →
          (restart ext w sb hs).2.1 = RestartOutcome.gaveUp ∧
          (restart ext w sb hs).2.2.all
            (fun ev => !(isRescanUpdateB ev)) = true)) := by
  constructor
  · intro op w a ha
    cases op with
    | opAddAddresses ext addrs =>
        by_cases h : w.restarting = true <;>
          simp [applyOp, AddAddresses, h, ha]
    | opStartWatching sb hs => simpa [applyOp, startWatching_addresses] using ha
    | opWaitForSync ext => simpa [applyOp, WaitForSync] using ha
    | opClose ext => simpa [applyOp, Close, stop_addresses] using ha
    | opStop ext => simpa [applyOp, stop_addresses] using ha
    | opRestart ext sb hs => simpa [applyOp, restart_addresses] using ha
    | opHandleErr ext sb hs msg =>
        simpa [applyOp, handleRescanError_addresses] using ha
  · intro ext w sb hs q syncTr hfc hq h1 h2 h3 h4 h5 h6
    have hsync : ∀ ev ∈ syncTr, isRescanUpdateB ev = false := by
      apply syncPoll_no_update
      have h7 := waitForSyncAux_only_polls ext.polls
      rw [h6] at h7
      exact h7
    unfold restart stop start StartWatching addAddresses
    simp only [hfc, hq, h1, h2, h3, h4, h5, h6]
    rcases hd : decodeAll (ext.decode (freshParams w.testnet)) w.addresses
        with e | aaa <;>
      rcases hu : ext.updateErr with _ | e2 <;>
        simp only [freshParams] at hd ⊢ <;>
          simp [hd, hu, isRescanUpdateB, hsync] <;>
            exact fun x hx => hsync x hx

theorem watched_addresses_invariant_witness :
    ("addrA" ∈ (applyOp (Op.opAddAddresses extOK ["addrB"]) wLive).addresses) ∧
    (Event.newRescan wLive.nextId 628320 7 ∈
        (restart extOK wLive 628320 7).2.2 ∧
     Event.reapplyCall wLive.addresses ∈ (restart extOK wLive 628320 7).2.2 ∧
     Event.rescanUpdate wLive.nextId wLive.addresses ["addrA"] ∈
       (restart extOK wLive 628320 7).2.2) ∧
    ((restart extBad wPoisoned 628320 7).2.1 = RestartOutcome.gaveUp ∧
     (restart extBad wPoisoned 628320 7).2.2.all
        (fun ev => !(isRescanUpdateB ev)) = true) :=
  ⟨watched_addresses_invariant.1 (Op.opAddAddresses extOK ["addrB"]) wLive
      "addrA" (by decide),
   ⟨(watched_addresses_invariant.2 extOK wLive 628320 7 0 []
      rfl rfl rfl rfl rfl rfl rfl rfl).1,
    (watched_addresses_invariant.2 extOK wLive 628320 7 0 []
      rfl rfl rfl rfl rfl rfl rfl rfl).2.1,
    (watched_addresses_invariant.2 extOK wLive 628320 7 0 []
      rfl rfl rfl rfl rfl rfl rfl rfl).2.2.1 ["addrA"] rfl rfl⟩,
   (watched_addresses_invariant.2 extBad wPoisoned 628320 7 0 []
      rfl rfl rfl rfl rfl rfl rfl rfl).2.2.2
      "btcutil.DecodeAddress: checksum mismatch" rfl⟩

/-- Claim C3 (counterexample): a `WaitForSync` run that observes the same
best height across a full poll interval (700000 twice, engine not current)
completes without invoking the restart protocol — its trace is just the two
height logs, and contains no event at all other than height logs. -/
theorem waitForSync_stagnation_no_restart_cex :
    (WaitForSync extStag wFresh).2.2 =
        [Event.syncPoll 700000, Event.syncPoll 700000] ∧
    (WaitForSync extStag wFresh).2.1 = SyncOutcome.okSync ∧
    (WaitForSync extStag wFresh).2.2.all isSyncPollB = true := by
  decide

/-- Claim C3 (amended): `WaitForSync` only polls `IsCurrent` and logs the
best height; it performs no comparison of consecutive heights, changes no
watcher state, and never invokes the restart protocol (every event it emits
is a height log). -/
theorem waitForSync_only_polls_never_restarts (ext : Ext) (w : Watcher) :
    (WaitForSync ext w).2.2.all isSyncPollB = true ∧
    (WaitForSync ext w).1 = w := by
  exact ⟨waitForSyncAux_only_polls ext.polls, rfl⟩

/-- Claim C4: for every error delivered on the rescan session's error
stream, if the message contains the defect signature
`"unable to fetch cfilter"` the listener logs it and invokes the restart
protocol with the same `startBlock` and handlers that were given to
`StartWatching`; any other error is only logged, with no state change. -/
theorem rescan_error_classifier (ext : Ext) (w : Watcher) (sb : Int)
    (hs : Nat) (msg : String) :
    (matchesDefectSignature msg = true →
        handleRescanError ext w sb hs msg =
          ((restart ext w sb hs).1,
           Event.logOnly msg :: Event.invokeRestart sb hs ::
             (restart ext w sb hs).2.2)) ∧
    (matchesDefectSignature msg = false →
        handleRescanError ext w sb hs msg = (w, [Event.logOnly msg])) := by
  constructor <;> intro h <;> simp [handleRescanError, h]

theorem rescan_error_classifier_witness :
    (handleRescanError extOK wLive 628320 7
        "Rescan: unable to fetch cfilter at height 5" =
      ((restart extOK wLive 628320 7).1,
       Event.logOnly "Rescan: unable to fetch cfilter at height 5" ::
         Event.invokeRestart 628320 7 ::
           (restart extOK wLive 628320 7).2.2)) ∧
    (handleRescanError extOK wLive 628320 7 "connection refused" =
      (wLive, [Event.logOnly "connection refused"])) :=
  ⟨(rescan_error_classifier extOK wLive 628320 7
      "Rescan: unable to fetch cfilter at height 5").1 (by decide),
   (rescan_error_classifier extOK wLive 628320 7 "connection refused").2
      (by decide)⟩

/-- Claim C5 (counterexample): with one undecodable address, `AddAddresses`
does return an error, but the watched-address list is not what it was before
the call — the undecodable address has been appended. -/
theorem addAddresses_partial_mutation_cex :
    (AddAddresses extBad wLive ["badaddr"]).2.1 =
        CallResult.err "btcutil.DecodeAddress: checksum mismatch" ∧
    (AddAddresses extBad wLive ["badaddr"]).1.addresses ≠ wLive.addresses := by
  decide

/-- Claim C5 (amended): `AddAddresses` appends the given addresses to the
watched-address list before any decoding; outside a restart, a decoding
failure then aborts the call with an error and the rescan session is never
updated (no partial mutation of the session), but the watched-address list
keeps the appended — possibly undecodable — addresses. -/
theorem addAddresses_decode_failure (ext : Ext) (w : Watcher)
    (addrs : List String) (e : String)
    (hres : w.restarting = false)
    (hdec : decodeAll (ext.decode w.params) addrs = Except.error e) :
    AddAddresses ext w addrs =
      ({ w with addresses := w.addresses ++ addrs }, CallResult.err e, []) := by
  unfold AddAddresses addAddresses
  simp [hres, hdec]

theorem addAddresses_decode_failure_witness :
    AddAddresses extBad wLive ["badaddr"] =
      ({ wLive with addresses := wLive.addresses ++ ["badaddr"] },
       CallResult.err "btcutil.DecodeAddress: checksum mismatch", []) :=
  addAddresses_decode_failure extBad wLive ["badaddr"]
    "btcutil.DecodeAddress: checksum mismatch" rfl rfl

/-- Claim C6: on a watcher that is not closed and already has a rescan
session installed, a second `StartWatching` call panics (and changes
nothing), rather than silently returning or reporting a recoverable
error. -/
theorem startWatching_second_call_panics (w : Watcher) (sb : Int)
    (hs s : Nat) (hfc : w.fullClose = false) (hr : w.rescan = some s) :
    StartWatching w sb hs = (w, SWResult.panicked, []) := by
  unfold StartWatching
  simp [hfc, hr]

theorem startWatching_second_call_panics_witness :
    StartWatching wLive 628320 7 = (wLive, SWResult.panicked, []) :=
  startWatching_second_call_panics wLive 628320 7 0 rfl rfl

/-- A watcher in the middle of a restart run. -/
def wRest : Watcher := { wLive with restarting := true }

/-- Claim C7: while `restarting` is true, `AddAddresses` appends the given
addresses and returns success without any session interaction (its event
trace is empty: no `rescan.Update` call); on the resulting state a successful
restart run's re-apply step pushes the full list — the old addresses followed
by the new ones — to the new session. -/
theorem addAddresses_while_restarting (ext : Ext) (w : Watcher)
    (addrs : List String) (hres : w.restarting = true) :
    AddAddresses ext w addrs =
      ({ w with addresses := w.addresses ++ addrs }, CallResult.ok, []) ∧
    (∀ (ext2 : Ext) (sb : Int) (hs q : Nat) (syncTr : List Event)
        (aaa : List String),
        w.fullClose = false → w.quitChan = some q →
        ext2.csStopErr = none → ext2.dbCloseErr = none →
        ext2.removeDirErr = none → ext2.removeFileErr = none →
        ext2.startErr = none →
        waitForSyncAux ext2.polls = (SyncOutcome.okSync, syncTr) →
        decodeAll (ext2.decode (freshParams w.testnet))
          (w.addresses ++ addrs) = Except.ok aaa →
        ext2.updateErr = none →
        Event.rescanUpdate w.nextId (w.addresses ++ addrs) aaa ∈
          (restart ext2 (AddAddresses ext w addrs).1 sb hs).2.2) := by
  have hmain : AddAddresses ext w addrs =
      ({ w with addresses := w.addresses ++ addrs }, CallResult.ok, []) := by
    unfold AddAddresses
    simp [hres]
  refine ⟨hmain, ?_⟩
  intro ext2 sb hs q syncTr aaa hfc hq h1 h2 h3 h4 h5 h6 h7 h8
  rw [hmain]
  rw [restart_success_eq ext2 { w with addresses := w.addresses ++ addrs }
      sb hs q syncTr aaa (by simpa using hfc) (by simpa using hq)
      h1 h2 h3 h4 h5 h6 (by simpa using h7) h8]
  simp

theorem addAddresses_while_restarting_witness :
    AddAddresses extOK wRest ["addrB"] =
      ({ wRest with addresses := wRest.addresses ++ ["addrB"] },
       CallResult.ok, []) ∧
    Event.rescanUpdate wRest.nextId (wRest.addresses ++ ["addrB"])
        ["addrA", "addrB"] ∈
      (restart extOK (AddAddresses extOK wRest ["addrB"]).1 628320 7).2.2 :=
  ⟨(addAddresses_while_restarting extOK wRest ["addrB"] rfl).1,
   (addAddresses_while_restarting extOK wRest ["addrB"] rfl).2 extOK 628320 7
      0 [] ["addrA", "addrB"] rfl rfl rfl rfl rfl rfl rfl rfl rfl rfl⟩

/-- Claim C8 (code evaluation at the failing input): on a fresh watcher with
no rescan session (before `StartWatching`), `AddAddresses` with a valid
address records the address but then invokes `rescan.Update` on the nil
session handle — a nil-pointer dereference (runtime panic) inside the
session library — instead of returning success. -/
theorem addAddresses_before_startWatching_nil_deref :
    AddAddresses extOK wFresh ["3HuJwfCpp3mB8hFctX2N9SMz7euKCQ4vWs"] =
      ({ wFresh with addresses := ["3HuJwfCpp3mB8hFctX2N9SMz7euKCQ4vWs"] },
       CallResult.nilDeref, []) := by
  decide

/-- Claim C10: after `Close`, any `StartWatching` call returns immediately
and silently: the state is untouched, no rescan session is created, no event
is emitted, and the double-call panic is not triggered — whatever state the
watcher was in before `Close`. -/
theorem startWatching_after_close (ext : Ext) (w : Watcher) (sb : Int)
    (hs : Nat) :
    StartWatching (Close ext w).1 sb hs =
      ((Close ext w).1, SWResult.closedReturn, []) := by
  have hfc : (Close ext w).1.fullClose = true := by
    unfold Close
    rw [stop_fullClose]
  unfold StartWatching
  simp [hfc]

/-! ### The output extractor -/

/-- The values of the outputs of `tx` whose script resolves to `a` under the
given parameters. -/
def outputValuesTo (resolve : List Nat → ChainParams → Option String)
    (params : ChainParams) (tx : List TxOut) (a : String) : List Int :=
  (tx.filter (fun o => resolve o.pkScript params = some a)).map TxOut.value

theorem mapGet_mapAdd (m : List (String × Int)) (k a : String) (v : Int) :
    mapGet (mapAdd m k v) a =
      if a = k then some ((mapGet m k).getD 0 + v) else mapGet m a := by
  induction m with
  | nil =>
      by_cases h : a = k
      · subst h; simp [mapAdd, mapGet]
      · simp [mapAdd, mapGet, h, Ne.symm h]
  | cons p rest ih =>
      obtain ⟨k1, v1⟩ := p
      by_cases h1 : k1 = k
      · subst h1
        by_cases h2 : a = k1
        · subst h2; simp [mapAdd, mapGet]
        · simp [mapAdd, mapGet, h2, Ne.symm h2]
      · by_cases h2 : k1 = a
        · subst h2
          have hak : ¬(k1 = k) := h1
          simp [mapAdd, mapGet, h1, hak]
        · simp [mapAdd, mapGet, h1, h2, ih]

theorem mapGet_foldTx (resolve : List Nat → ChainParams → Option String)
    (params : ChainParams) (tx : List TxOut) (m : List (String × Int))
    (a : String) :
    mapGet (tx.foldl (fun result txOut =>
        match resolve txOut.pkScript params with
        | none => result
        | some x => mapAdd result x txOut.value) m) a =
      (match mapGet m a with
       | none =>
           if outputValuesTo resolve params tx a = [] then none
           else some (outputValuesTo resolve params tx a).sum
       | some v0 => some (v0 + (outputValuesTo resolve params tx a).sum)) := by
  induction tx generalizing m with
  | nil => cases hm : mapGet m a <;> simp [outputValuesTo, hm]
  | cons o rest ih =>
      cases hr : resolve o.pkScript params with
      | none =>
          simpa [outputValuesTo, List.filter_cons, hr] using ih m
      | some x =>
          by_cases hx : x = a
          · subst hx
            cases hm : mapGet m x <;>
              simp [outputValuesTo, List.filter_cons, hr, ih, mapGet_mapAdd,
                hm, add_assoc]
          · cases hm : mapGet m a <;>
              simp [outputValuesTo, List.filter_cons, hr, hx, Ne.symm hx, ih,
                mapGet_mapAdd, hm]

/-- Claim C9: for every address `a`, the extractor's mapping holds exactly
the sum of the values of the outputs whose script resolves to `a` (per the
network selected by `testnet`); outputs that do not resolve are skipped, an
address with no resolving output has no entry, and the mapping does not
depend on the order of the outputs. -/
theorem prepareTxOutputs_spec (resolve : List Nat → ChainParams → Option String)
    (tx : List TxOut) (testnet : Bool) :
    (∀ a, mapGet (PrepareTxOutputs resolve tx testnet) a =
        (if specOutputValues resolve tx testnet a = [] then none
         else some (specOutputValues resolve tx testnet a).sum)) ∧
    (∀ tx2, tx.Perm tx2 → ∀ a,
        mapGet (PrepareTxOutputs resolve tx testnet) a =
          mapGet (PrepareTxOutputs resolve tx2 testnet) a) := by
  have key : ∀ (tx' : List TxOut) (a : String),
      mapGet (PrepareTxOutputs resolve tx' testnet) a =
        (if specOutputValues resolve tx' testnet a = [] then none
         else some (specOutputValues resolve tx' testnet a).sum) := by
    intro tx' a
    unfold PrepareTxOutputs specOutputValues
    rw [mapGet_foldTx]
    simp [mapGet, outputValuesTo]
  refine ⟨fun a => key tx a, ?_⟩
  intro tx2 hperm a
  rw [key tx a, key tx2 a]
  have hvals : (specOutputValues resolve tx testnet a).Perm
      (specOutputValues resolve tx2 testnet a) := by
    unfold specOutputValues
    exact (hperm.filter _).map _
  by_cases h : specOutputValues resolve tx testnet a = []
  · have h2 : specOutputValues resolve tx2 testnet a = [] :=
      ((h ▸ hvals).symm).eq_nil
    simp [h, h2]
  · have h2 : ¬ specOutputValues resolve tx2 testnet a = [] := by
      intro h2
      exact h (h2 ▸ hvals).eq_nil
    simp [h, h2, hvals.sum_eq]

/-- A script resolver for concrete checks: script `[1]` pays `"A"`, script
`[2]` pays `"B"`, anything else is nonstandard. -/
def resolveX : List Nat → ChainParams → Option String := fun s _ =>
  if s = [1] then some "A" else if s = [2] then some "B" else none

def txX : List TxOut := [⟨5, [1]⟩, ⟨7, [3]⟩, ⟨6, [1]⟩, ⟨2, [2]⟩]

def txX2 : List TxOut := [⟨2, [2]⟩, ⟨6, [1]⟩, ⟨5, [1]⟩, ⟨7, [3]⟩]

theorem prepareTxOutputs_spec_witness :
    (mapGet (PrepareTxOutputs resolveX txX false) "A" =
      (if specOutputValues resolveX txX false "A" = [] then none
       else some (specOutputValues resolveX txX false "A").sum)) ∧
    mapGet (PrepareTxOutputs resolveX txX false) "A" =
      mapGet (PrepareTxOutputs resolveX txX2 false) "A" :=
  ⟨(prepareTxOutputs_spec resolveX txX false).1 "A",
   (prepareTxOutputs_spec resolveX txX false).2 txX2 (by decide) "A"⟩

end Watch
